import Mathlib

/-!
Verification of the ROS2 CLI installer (`ros2_installer_cli.py`) against its
natural-language specification.  Python code is shallowly embedded: pure
fragments become Lean functions, stateful fragments become explicit state
passing, external effects (subprocess runs, filesystem renames, user prompts)
become oracle parameters.  Exceptions are modelled with `Option String` /
`Except String` carrying the exception message.
-/

namespace Ros2Installer

/-! ### String utilities

`str.rsplit(sep, 1)[0]` in Python returns the text before the *last*
occurrence of `sep`, or the whole string when `sep` does not occur.
We model strings at the character-list level for the occurrence search. -/

/-- `matchesAt pat s` is true when `pat` is an initial segment of `s`. -/
def matchesAt (pat s : List Char) : Bool :=
  s.take pat.length == pat

/-- Position of the last occurrence of `pat` inside `s`, if any. -/
def lastMatchPos (pat s : List Char) : Option Nat :=
  ((List.range (s.length + 1)).filter (fun i => matchesAt pat (s.drop i))).getLast?

/-- The text before the last occurrence of `pat` in `s`
(`s.rsplit(pat, 1)[0]` in Python); `s` itself when `pat` never occurs. -/
def rsplitBeforeLast (pat s : String) : String :=
  match lastMatchPos pat.toList s.toList with
  | none => s
  | some i => String.mk (s.toList.take i)

/-- `backup_file.rsplit('.backup.', 1)[0]` from `_rollback_installation`:
recovers the original path from a backup path. -/
def stripBackupSuffix (s : String) : String :=
  rsplitBeforeLast ".backup." s

/-- Python's substring test `pat in s`. -/
def containsSub (pat s : String) : Bool :=
  (lastMatchPos pat.toList s.toList).isSome

/-- Python's `str.title()` restricted to a single lowercase word
(capitalize the first character, lowercase the rest), as applied to the
distro name in `_configure_environment`. -/
def titleCase (s : String) : String :=
  match s.toList with
  | [] => ""
  | c :: rest => String.mk (c.toUpper :: rest.map Char.toLower)

/-! ### Data model -/

/-- `self.installation_state`: the mutation journal, four append-only lists
(`packages_installed`, `repositories_added`, `files_modified`,
`backup_files`). -/
structure InstallationState where
  packages_installed : List String
  repositories_added : List String
  files_modified : List String
  backup_files : List String
deriving DecidableEq, Repr

/-- The empty journal created in `CLIInstaller.__init__`. -/
def InstallationState.empty : InstallationState :=
  ⟨[], [], [], []⟩

/-- The `InstallationResult` dataclass.  `duration` is a wall-clock float in
the source; we model it over `ℚ`. -/
structure InstallationResult where
  success : Bool
  duration : ℚ
  packages_installed : Nat
  errors : List String
  warnings : List String
  session_id : String
deriving DecidableEq, Repr

/-! ### Configuration documents

The YAML configuration is a nested dictionary; we model the keys the
installer actually reads.  `Option` encodes key absence (`dict.get`). -/

/-- The `installation` section. -/
structure InstallationSection where
  ros_distro : Option String
  package_set : Option String
  uninstall_existing : Option Bool
  retry_attempts : Option Nat
  timeout_seconds : Option Nat
deriving DecidableEq, Repr

/-- The `system` section. -/
structure SystemSection where
  update_system : Option Bool
  install_dependencies : Option Bool
  backup_configs : Option Bool
deriving DecidableEq, Repr

/-- The `validation` section. -/
structure ValidationSection where
  min_disk_space_gb : Option ℚ
  min_memory_gb : Option ℚ
  supported_architectures : Option (List String)
  required_ubuntu_version : Option String
deriving DecidableEq, Repr

/-- A configuration document; `Option` on a section encodes section absence.
The contents of `logging` are not consulted by the validated properties, so
the section is modelled as a unit payload. -/
structure ConfigDoc where
  installation : Option InstallationSection
  logging : Option Unit
  system : Option SystemSection
  validation : Option ValidationSection
deriving DecidableEq, Repr

/-- `valid_distros` from `_validate_configuration`. -/
def validDistros : List String :=
  ["kilted", "jazzy", "iron", "humble", "rolling"]

/-- The four enumerated package-set tiers (the branches of
`_install_packages` and the keys of `image_map` in
`_get_ros_docker_image`). -/
def validPackageSets : List String :=
  ["minimal", "base", "desktop", "desktop-full"]

/-- `config['installation'].get('ros_distro', 'kilted')` under a given
document (meaningful once the `installation` section is present). -/
def ConfigDoc.distro (cfg : ConfigDoc) : String :=
  match cfg.installation with
  | none => "kilted"
  | some s => s.ros_distro.getD "kilted"

/-- `CLIInstaller._validate_configuration`: requires the `installation` and
`logging` sections (in that order) and a `ros_distro` value inside
`valid_distros`; raises `ConfigurationError` (here the `Except.error`
channel) otherwise, and returns the document unchanged on success. -/
def validateConfiguration (cfg : ConfigDoc) : Except String ConfigDoc :=
  if cfg.installation.isNone then
    Except.error "Missing required section: installation"
  else if cfg.logging.isNone then
    Except.error "Missing required section: logging"
  else if ¬ (cfg.distro ∈ validDistros) then
    Except.error ("Invalid ROS distro: " ++ cfg.distro)
  else
    Except.ok cfg

/-- `CLIInstaller._load_configuration` applied to an already-parsed document:
any failure is re-wrapped into a `ConfigurationError`.  The second component
is the list of filesystem paths mutated while loading a parsed document —
always empty, making explicit that a rejected document causes no system
mutation. -/
def loadConfiguration (cfg : ConfigDoc) : Except String ConfigDoc × List String :=
  (match validateConfiguration cfg with
   | Except.ok c => Except.ok c
   | Except.error e => Except.error ("Failed to load configuration: " ++ e),
   [])

/-! ### Package resolution (`_install_packages`, `_get_ros_docker_image`) -/

/-- The main package list chosen by `_install_packages` for a package-set
tier and distro string; the final branch is the source's
`else:  # desktop-full` fallback. -/
def mainPackages (package_set distro : String) : List String :=
  if package_set = "minimal" then
    ["ros-" ++ distro ++ "-ros-core", "ros-" ++ distro ++ "-ros2cli"]
  else if package_set = "base" then
    ["ros-" ++ distro ++ "-ros-base", "ros-" ++ distro ++ "-ros2cli",
     "ros-" ++ distro ++ "-demo-nodes-cpp", "ros-" ++ distro ++ "-demo-nodes-py"]
  else if package_set = "desktop" then
    ["ros-" ++ distro ++ "-desktop", "ros-" ++ distro ++ "-rviz2"]
  else
    ["ros-" ++ distro ++ "-desktop-full"]

/-- `_get_ros_docker_image`: the `image_map` dictionary lookup with default
`osrf/ros:{distro}-desktop-full`. -/
def getRosDockerImage (distro package_set : String) : String :=
  if package_set = "minimal" then "ros:" ++ distro ++ "-ros-core"
  else if package_set = "base" then "ros:" ++ distro ++ "-ros-base"
  else if package_set = "desktop" then "osrf/ros:" ++ distro ++ "-desktop"
  else if package_set = "desktop-full" then "osrf/ros:" ++ distro ++ "-desktop-full"
  else "osrf/ros:" ++ distro ++ "-desktop-full"

/-! ### Command Executor (`_run_command`)

`_run_command` runs `for attempt in range(retries)`: each attempt either
succeeds (return), or fails; a failing final attempt (`attempt ==
retries - 1`) re-raises, and a failing non-final attempt is followed by
`time.sleep(2 ** attempt)` before the next iteration.  We record the
observable events (attempt numbers and sleep durations) and the outcome.
The failure oracle `fails k` says whether 0-indexed attempt `k` fails
(covering both `TimeoutExpired` and `CalledProcessError`). -/

/-- Observable executor events: an attempt with its 0-indexed number, or a
sleep of the given number of seconds. -/
inductive Event where
  | attempt (k : Nat)
  | sleep (seconds : Nat)
deriving DecidableEq, Repr

/-- Outcome of `_run_command`: normal return, a re-raised exception from the
given attempt, or Python's implicit `return None` when the loop body never
raises at the last index (only possible with `retries = 0`). -/
inductive RunOutcome where
  | ok
  | raised (k : Nat)
  | fellThrough
deriving DecidableEq, Repr

/-- One execution of the retry loop of `_run_command`, starting at attempt
index `attempt` with `remaining` loop iterations left
(`remaining = retries - attempt` at the call site). -/
def runAttempts (fails : Nat → Bool) (retries : Nat) :
    Nat → Nat → List Event × RunOutcome
  | _, 0 => ([], RunOutcome.fellThrough)
  | attempt, remaining + 1 =>
    if fails attempt then
      if attempt = retries - 1 then
        ([Event.attempt attempt], RunOutcome.raised attempt)
      else
        let rest := runAttempts fails retries (attempt + 1) remaining
        (Event.attempt attempt :: Event.sleep (2 ^ attempt) :: rest.1, rest.2)
    else
      ([Event.attempt attempt], RunOutcome.ok)

/-- `_run_command` with a resolved retry ceiling `retries`. -/
def runCommand (fails : Nat → Bool) (retries : Nat) : List Event × RunOutcome :=
  runAttempts fails retries 0 retries

/-- The attempt numbers occurring in an executor trace, in order. -/
def attemptsOf (t : List Event) : List Nat :=
  t.filterMap (fun e => match e with | Event.attempt k => some k | _ => none)

/-- The sleep durations occurring in an executor trace, in order. -/
def sleepsOf (t : List Event) : List Nat :=
  t.filterMap (fun e => match e with | Event.sleep n => some n | _ => none)

/-- Modelled from the spec: the trace the specification predicts for a
deterministically failing command — attempts `a, a+1, …` with a sleep of
`2^k` seconds after each failing non-final attempt `k`. -/
def specFailTrace : Nat → Nat → List Event
  | _, 0 => []
  | a, 1 => [Event.attempt a]
  | a, m + 2 =>
      Event.attempt a :: Event.sleep (2 ^ a) :: specFailTrace (a + 1) (m + 1)

/-! ### Rollback Guard (`_rollback_on_failure`, `_rollback_installation`) -/

/-- Oracles for the external effects rollback performs: whether the single
`apt-get remove` invocation fails, whether a backup file exists on disk at
rollback time, and whether renaming it over the original fails. -/
structure RollbackEnv where
  removalFails : Bool
  backupExists : String → Bool
  renameFails : String → Bool

/-- The observable actions of `_rollback_installation`.
`removalCommand` is the package set handed to the single
`sudo apt-get remove -y …` invocation (`none` when no new packages were
recorded; its `Option` type reflects that at most one removal command is
issued).  `restored` lists the renames performed, as
(backup path, original path) pairs.  `removalWarned` / `restoreWarned`
record failures downgraded to warnings. -/
structure RollbackActions where
  removalCommand : Option (List String)
  removalWarned : Bool
  restored : List (String × String)
  restoreWarned : List String
deriving DecidableEq, Repr

/-- `_rollback_installation(initial_state)`: packages recorded since the
guard's entry snapshot are computed as a set difference
(`set(current) - set(initial)`, modelled as a deduplicated filtered list);
a nonempty difference yields one removal command whose failure is only a
warning; every backup file recorded in the *current* journal that still
exists is renamed over `stripBackupSuffix` of its path, per-file failures
again being warnings. -/
def rollbackInstallation (initial current : InstallationState)
    (env : RollbackEnv) : RollbackActions :=
  let newPackages :=
    (current.packages_installed.filter
      (fun p => ¬ p ∈ initial.packages_installed)).dedup
  let removalCommand := if newPackages.isEmpty then none else some newPackages
  let removalWarned := removalCommand.isSome && env.removalFails
  let attempted := current.backup_files.filter (fun b => env.backupExists b)
  let restored := (attempted.filter (fun b => ¬ env.renameFails b)).map
    (fun b => (b, stripBackupSuffix b))
  let restoreWarned := attempted.filter (fun b => env.renameFails b)
  ⟨removalCommand, removalWarned, restored, restoreWarned⟩

/-- `_rollback_on_failure`: snapshots the journal on entry
(`copy.deepcopy(self.installation_state)`), runs the body, and on an
unhandled failure performs `_rollback_installation` against the entry
snapshot and re-raises the original exception.  The body returns the
journal as it stands when it finishes or fails, plus `some e` when it
raised exception `e`.  The result is (journal, rollback actions if any,
exception propagated to the caller if any). -/
def rollbackOnFailure (env : RollbackEnv)
    (body : InstallationState → InstallationState × Option String)
    (s0 : InstallationState) :
    InstallationState × Option RollbackActions × Option String :=
  match body s0 with
  | (s1, none) => (s1, none, none)
  | (s1, some e) => (s1, some (rollbackInstallation s0 s1 env), some e)

/-! ### Validator (`validate_system`) -/

/-- The `SystemInfo` dataclass (`_gather_system_info`).  The float fields
are modelled over `ℚ`. -/
structure SystemInfo where
  os_name : String
  os_version : String
  architecture : String
  memory_gb : ℚ
  disk_space_gb : ℚ
  cpu_cores : Nat
  is_ubuntu : Bool
  is_macos : Bool
  linux_distro : String
deriving DecidableEq, Repr

/-- Host facts `validate_system` reads *beyond* the gathered snapshot and
the configuration: the effective uid (`os.geteuid()`), the output of the
`lsb_release -rs` probe, and whether `docker --version` succeeds. -/
structure HostEnv where
  euid : Nat
  lsb_release_output : String
  docker_installed : Bool
deriving DecidableEq, Repr

/-- The issues `validate_system` can append, one constructor per
`issues.append(...)` site (the message text is presentation). -/
inductive ValidationIssue where
  | insufficientDisk (actual required : ℚ)
  | insufficientMemory (actual required : ℚ)
  | unsupportedArchitecture (arch : String)
  | sudoRequired
deriving DecidableEq, Repr

/-- Result of `validate_system`: the returned boolean, the issue list, and
the warnings logged along the way. -/
structure ValidationOutcome where
  passed : Bool
  issues : List ValidationIssue
  warnings : List String
deriving DecidableEq, Repr

/-- `self.config.get('validation', {})` with the per-key defaults. -/
def validationOf (cfg : ConfigDoc) : ValidationSection :=
  cfg.validation.getD ⟨none, none, none, none⟩

/-- `CLIInstaller.validate_system`: disk, memory and architecture checks
against the configured minimums; on Ubuntu additionally a version-mismatch
warning (driven by the `lsb_release -rs` probe) and a root-privilege check
(`os.geteuid() != 0`); on non-Ubuntu hosts the docker probe is logged only.
Returns `issues == []` as the pass flag. -/
def validateSystem (cfg : ConfigDoc) (info : SystemInfo) (env : HostEnv) :
    ValidationOutcome :=
  let v := validationOf cfg
  let minDisk := v.min_disk_space_gb.getD 4
  let minMem := v.min_memory_gb.getD 2
  let archs := v.supported_architectures.getD
    ["amd64", "arm64", "aarch64", "x86_64"]
  let reqVer := v.required_ubuntu_version.getD "24.04"
  let diskIssues := if info.disk_space_gb < minDisk then
      [ValidationIssue.insufficientDisk info.disk_space_gb minDisk] else []
  let memIssues := if info.memory_gb < minMem then
      [ValidationIssue.insufficientMemory info.memory_gb minMem] else []
  let archIssues := if info.architecture ∈ archs then []
      else [ValidationIssue.unsupportedArchitecture info.architecture]
  let warnings := if info.is_ubuntu then
      (if env.lsb_release_output ≠ "" ∧
          ¬ (containsSub reqVer env.lsb_release_output = true) then
        ["Ubuntu version mismatch: " ++ env.lsb_release_output
          ++ " != " ++ reqVer]
      else [])
    else []
  let sudoIssues := if info.is_ubuntu then
      (if env.euid ≠ 0 then [ValidationIssue.sudoRequired] else [])
    else []
  let issues := diskIssues ++ memIssues ++ archIssues ++ sudoIssues
  ⟨issues.isEmpty, issues, warnings⟩

/-! ### Environment configuration (`_configure_environment`) -/

/-- Host state touched by `_configure_environment`: the invoking user's
`.bashrc` (`none` when absent, otherwise its lines), the set of files
created by the backup `cp`, and the mutation journal. -/
structure ProfileState where
  bashrc : Option (List String)
  createdFiles : List String
  journal : InstallationState
deriving DecidableEq, Repr

/-- The signature line of the setup block,
`source /opt/ros/{distro}/setup.bash` — the line whose presence makes the
step skip. -/
def sigLine (distro : String) : String :=
  "source /opt/ros/" ++ distro ++ "/setup.bash"

/-- The `ros2_setup` block appended to `.bashrc`, line by line (the Python
triple-quoted string opens and closes with a newline, hence the leading
empty line). -/
def rosSetupBlock (distro : String) : List String :=
  [ ""
  , "# ROS2 " ++ titleCase distro ++ " Setup - Added by CLI Installer"
  , sigLine distro
  , "export ROS_DOMAIN_ID=0"
  , "export ROS_LOCALHOST_ONLY=0"
  , "source /usr/share/colcon_argcomplete/hook/colcon-argcomplete.bash" ]

/-- The `~{user}/.bashrc` path for the invoking user. -/
def bashrcPath (user : String) : String :=
  "~" ++ user ++ "/.bashrc"

/-- The file content corresponding to a line-structured profile (what
`f.read()` returns): the lines joined by newlines. -/
def joinLines : List String → String
  | [] => ""
  | [l] => l
  | l :: rest => l ++ "\n" ++ joinLines rest

/-- `CLIInstaller._configure_environment`: no-op without `SUDO_USER`;
otherwise back up the profile first when it exists and backups are
configured (recording the backup in the journal), then skip if the
signature occurs anywhere in the file content as a substring
(`if f"source /opt/ros/{distro}/setup.bash" in content`), else append the
setup block, restore ownership, and record the profile as modified. -/
def configureEnvironment (distro : String) (backupConfigs : Bool)
    (sudoUser : Option String) (sessionId : String)
    (st : ProfileState) : ProfileState :=
  match sudoUser with
  | none => st
  | some user =>
    let path := bashrcPath user
    let backupPath := path ++ ".backup." ++ sessionId
    let st1 :=
      match st.bashrc with
      | some _ =>
        if backupConfigs then
          { st with
            createdFiles := st.createdFiles ++ [backupPath]
            journal := { st.journal with
              backup_files := st.journal.backup_files ++ [backupPath] } }
        else st
      | none => st
    let alreadyThere : Bool :=
      match st.bashrc with
      | some lines => containsSub (sigLine distro) (joinLines lines)
      | none => false
    if alreadyThere then st1
    else
      { st1 with
        bashrc := some ((st1.bashrc.getD []) ++ rosSetupBlock distro)
        journal := { st1.journal with
          files_modified := st1.journal.files_modified ++ [path] } }

/-! ### Container Install Pipeline (`install_ros2_docker`) -/

/-- The pipeline steps of `install_ros2_docker`, in source order. -/
inductive DockerStep where
  | installRuntime
  | waitDaemon
  | buildImage
  | createContainer
  | installWrapper
  | verify
deriving DecidableEq, Repr

/-- The canonical step order of the container pipeline. -/
def canonicalDockerOrder : List DockerStep :=
  [DockerStep.installRuntime, DockerStep.waitDaemon, DockerStep.buildImage,
   DockerStep.createContainer, DockerStep.installWrapper, DockerStep.verify]

/-- One run's worth of oracles for the container pipeline: the validation
and prompt outcomes, the two runtime probes (`_check_docker_installed`,
`_check_docker_running`), and for each step `none` (success) or `some e`
(the step raised exception `e`).  `elapsed` is the wall-clock duration the
failure/success paths report. -/
structure DockerScenario where
  validationPasses : Bool
  userConfirms : Bool
  dockerInstalled : Bool
  dockerRunning : Bool
  installDockerOutcome : Option String
  waitDaemonOutcome : Option String
  buildOutcome : Option String
  createOutcome : Option String
  wrapperOutcome : Option String
  verifyOutcome : Option String
  elapsed : ℚ
  sid : String

/-- The steps `install_ros2_docker` will attempt, with each step's oracle
outcome: runtime install only when absent, daemon wait only when the
daemon is not running, then build, create, wrapper, verify. -/
def dockerStepPlan (scen : DockerScenario) : List (DockerStep × Option String) :=
  (if scen.dockerInstalled then []
   else [(DockerStep.installRuntime, scen.installDockerOutcome)]) ++
  (if scen.dockerRunning then []
   else [(DockerStep.waitDaemon, scen.waitDaemonOutcome)]) ++
  [(DockerStep.buildImage, scen.buildOutcome),
   (DockerStep.createContainer, scen.createOutcome),
   (DockerStep.installWrapper, scen.wrapperOutcome),
   (DockerStep.verify, scen.verifyOutcome)]

/-- Sequential execution of planned steps: stop at the first step that
raises, returning the attempted steps and the exception if any. -/
def runPlan : List (DockerStep × Option String) →
    List DockerStep × Option String
  | [] => ([], none)
  | (st, some e) :: _ => ([st], some e)
  | (st, none) :: rest =>
    let r := runPlan rest
    (st :: r.1, r.2)

/-- `install_ros2_docker`: validation failure raises `ValidationError`
(caught at the bottom, its message becoming the single error); a declined
prompt returns the literal cancelled result; otherwise the steps run in
order, a raised step producing `success=False` with exactly the raised
message as error list, and full success producing `success=True` with
`packages_installed=1`. -/
def installRos2Docker (scen : DockerScenario) :
    List DockerStep × InstallationResult :=
  if scen.validationPasses = false then
    ([], ⟨false, scen.elapsed, 0, ["System validation failed"], [], scen.sid⟩)
  else if scen.userConfirms = false then
    ([], ⟨false, 0, 0, ["Installation cancelled by user"], [], scen.sid⟩)
  else
    match runPlan (dockerStepPlan scen) with
    | (trace, some e) =>
      (trace, ⟨false, scen.elapsed, 0, [e], [], scen.sid⟩)
    | (trace, none) =>
      (trace, ⟨true, scen.elapsed, 1, [], [], scen.sid⟩)

/-! ### Native Install Pipeline (`_install_ros2_native`) -/

/-- The pipeline steps of `_install_ros2_native` under the rollback guard,
in source order. -/
inductive NativeStep where
  | update
  | uninstallExisting
  | setupRepos
  | installPackages
  | devTools
  | configureEnv
  | verify
deriving DecidableEq, Repr

/-- The guarded step sequence: `_uninstall_existing_ros` runs only when
`installation.uninstall_existing` resolves true. -/
def nativeStepList (uninstallExisting : Bool) : List NativeStep :=
  [NativeStep.update] ++
  (if uninstallExisting then [NativeStep.uninstallExisting] else []) ++
  [NativeStep.setupRepos, NativeStep.installPackages, NativeStep.devTools,
   NativeStep.configureEnv, NativeStep.verify]

/-- Oracles for a native run: validation and prompt outcomes, the resolved
`uninstall_existing` flag, each step's effect on the journal together with
`some e` when it raises (the returned journal then reflects the mutations
recorded before the raise), the rollback oracles, and the reported
wall-clock duration. -/
structure NativeScenario where
  validationPasses : Bool
  userConfirms : Bool
  uninstallExisting : Bool
  stepEffect : NativeStep → InstallationState →
    InstallationState × Option String
  rollbackEnv : RollbackEnv
  elapsed : ℚ
  sid : String

/-- Sequential execution of the guarded native steps, threading the
journal, recording the count `_install_packages` returns
(`len(installation_state['packages_installed'])` at that point), and
stopping at the first raise. -/
def runNativeSteps (eff : NativeStep → InstallationState →
    InstallationState × Option String) :
    List NativeStep → InstallationState → Nat →
    List NativeStep × InstallationState × Nat × Option String
  | [], s, count => ([], s, count, none)
  | st :: rest, s, count =>
    match eff st s with
    | (s2, some e) => ([st], s2, count, some e)
    | (s2, none) =>
      let count2 := if st = NativeStep.installPackages then
          s2.packages_installed.length else count
      let r := runNativeSteps eff rest s2 count2
      (st :: r.1, r.2)

/-- `_install_ros2_native`: validation failure and declined prompt return
before the rollback guard; otherwise the guarded steps run from the empty
journal, a raise triggering `_rollback_installation` against the entry
snapshot and the raised message becoming the single error.
Returns (attempted steps, rollback actions if any, result). -/
def installRos2Native (scen : NativeScenario) :
    List NativeStep × Option RollbackActions × InstallationResult :=
  if scen.validationPasses = false then
    ([], none,
     ⟨false, scen.elapsed, 0, ["System validation failed"], [], scen.sid⟩)
  else if scen.userConfirms = false then
    ([], none,
     ⟨false, 0, 0, ["Installation cancelled by user"], [], scen.sid⟩)
  else
    let s0 := InstallationState.empty
    match runNativeSteps scen.stepEffect
        (nativeStepList scen.uninstallExisting) s0 0 with
    | (trace, s1, count, some e) =>
      (trace, some (rollbackInstallation s0 s1 scen.rollbackEnv),
       ⟨false, scen.elapsed, count, [e], [], scen.sid⟩)
    | (trace, _, count, none) =>
      (trace, none, ⟨true, scen.elapsed, count, [], [], scen.sid⟩)

/-! ### Sample data for witnesses -/

/-- A guarded body reproducing the spec's rollback scenario: one package
install and one backup file recorded, then the step raises. -/
def sampleFailingBody (s : InstallationState) :
    InstallationState × Option String :=
  ({ s with
      packages_installed := s.packages_installed ++ ["ros-kilted-ros-core"]
      backup_files := s.backup_files ++ ["~u/.bashrc.backup.abc12345"] },
   some "step 4 failed")

/-- Rollback oracles where every backup exists and nothing fails. -/
def sampleRollbackEnv : RollbackEnv :=
  ⟨false, fun _ => true, fun _ => false⟩

/-- The journal `sampleFailingBody` leaves behind. -/
def sampleFailState : InstallationState :=
  ⟨["ros-kilted-ros-core"], [], [], ["~u/.bashrc.backup.abc12345"]⟩

/-- A compliant Ubuntu snapshot (8 GB memory, 100 GB free disk, x86_64). -/
def ubuntuSnapshot : SystemInfo :=
  ⟨"Linux", "6.8.0", "x86_64", 8, 100, 8, true, false, "ubuntu"⟩

/-- A configuration document with both required sections present and no
overrides (per-key defaults apply). -/
def sampleConfig : ConfigDoc :=
  ⟨some ⟨some "kilted", some "desktop-full", none, none, none⟩,
   some (), none, none⟩

/-- A container-pipeline scenario: docker absent, daemon not running,
runtime install and daemon wait succeed, and the image build raises. -/
def sampleBuildFailScenario : DockerScenario :=
  ⟨true, true, false, false, none, none, some "build failed",
   none, none, none, 5, "s1"⟩

/-- A fully successful container-pipeline scenario. -/
def sampleDockerSuccess : DockerScenario :=
  ⟨true, true, false, false, none, none, none, none, none, none, 7, "s2"⟩

/-- A container scenario where the user declines the prompt. -/
def sampleDockerCancel : DockerScenario :=
  ⟨true, false, true, true, none, none, none, none, none, none, 3, "s3"⟩

/-- A native scenario where the user declines the prompt. -/
def sampleNativeCancel : NativeScenario :=
  ⟨true, false, true, fun _ s => (s, none), sampleRollbackEnv, 3, "s4"⟩

/-- An initial profile state: an existing empty `.bashrc`, no files
created, empty journal. -/
def emptyProfileStart : ProfileState :=
  ⟨some [], [], InstallationState.empty⟩

/-- `Except` result is an error (a raised `ConfigurationError`). -/
def isLoadError : Except String ConfigDoc → Bool
  | Except.error _ => true
  | Except.ok _ => false

/-! ## Theorems -/

lemma runAttempts_all_fail (m : Nat) :
    ∀ a retries, retries = a + m → 0 < m →
    runAttempts (fun _ => true) retries a m
      = (specFailTrace a m, RunOutcome.raised (retries - 1)) := by
  induction m with
  | zero => intro a r _ h; omega
  | succ k ih =>
    intro a r hr _
    cases k with
    | zero =>
      have ha : a = r - 1 := by omega
      subst ha
      simp [runAttempts, specFailTrace]
    | succ j =>
      have hne : ¬ a = r - 1 := by omega
      have h2 := ih (a + 1) r (by omega) (by omega)
      simp only [runAttempts, if_true] at h2
      simp [runAttempts, specFailTrace, hne, h2]

lemma attemptsOf_specFailTrace (m : Nat) :
    ∀ a, attemptsOf (specFailTrace a m) = List.range' a m := by
  induction m with
  | zero => intro a; simp [specFailTrace, attemptsOf]
  | succ k ih =>
    intro a
    cases k with
    | zero => simp [specFailTrace, attemptsOf, List.range'_succ]
    | succ j =>
      have h2 := ih (a + 1)
      simp only [attemptsOf] at h2 ⊢
      simp only [specFailTrace]
      simp [List.filterMap_cons, h2, List.range'_succ]

lemma sleepsOf_specFailTrace (m : Nat) :
    ∀ a, sleepsOf (specFailTrace a m)
      = (List.range' a (m - 1)).map (fun k => 2 ^ k) := by
  induction m with
  | zero => intro a; simp [specFailTrace, sleepsOf]
  | succ k ih =>
    intro a
    cases k with
    | zero => simp [specFailTrace, sleepsOf]
    | succ j =>
      have h2 := ih (a + 1)
      simp only [sleepsOf] at h2 ⊢
      simp only [specFailTrace]
      simp [List.filterMap_cons, h2, List.range'_succ]

/-- C2: a command that fails on every attempt is attempted exactly
`retries` times (attempt numbers `0, …, retries-1` in order), with a sleep
of `2^(k-1)` seconds before each attempt `k ≥ 1` (so the inter-attempt
delays are `2^0, …, 2^(retries-2)`, strictly increasing and uncapped), and
the executor re-raises the final attempt's exception. -/
theorem executor_retry_backoff_reraise (retries : Nat) (h : 1 ≤ retries) :
    runCommand (fun _ => true) retries
      = (specFailTrace 0 retries, RunOutcome.raised (retries - 1)) ∧
    attemptsOf (runCommand (fun _ => true) retries).1 = List.range retries ∧
    sleepsOf (runCommand (fun _ => true) retries).1
      = (List.range (retries - 1)).map (fun k => 2 ^ k) ∧
    (sleepsOf (runCommand (fun _ => true) retries).1).Pairwise
      (fun x y => x < y) := by
  have hmain : runCommand (fun _ => true) retries
      = (specFailTrace 0 retries, RunOutcome.raised (retries - 1)) := by
    unfold runCommand
    exact runAttempts_all_fail retries 0 retries (by omega) (by omega)
  refine ⟨hmain, ?_, ?_, ?_⟩
  · rw [hmain]
    simpa [List.range_eq_range'] using attemptsOf_specFailTrace retries 0
  · rw [hmain]
    simpa [List.range_eq_range'] using sleepsOf_specFailTrace retries 0
  · rw [hmain]
    have hs := sleepsOf_specFailTrace retries 0
    rw [show (specFailTrace 0 retries, RunOutcome.raised (retries - 1)).1
        = specFailTrace 0 retries from rfl, hs, List.pairwise_map]
    have hp : (List.range' 0 (retries - 1)).Pairwise (fun x y => x < y) := by
      rw [← List.range_eq_range']
      exact List.pairwise_lt_range (retries - 1)
    exact hp.imp (fun hab => Nat.pow_lt_pow_right (by norm_num) hab)

/-- Witness for C2 at `retries = 3`. -/
theorem executor_retry_backoff_reraise_witness :
    1 ≤ 3 ∧
    (runCommand (fun _ => true) 3
       = (specFailTrace 0 3, RunOutcome.raised (3 - 1)) ∧
     attemptsOf (runCommand (fun _ => true) 3).1 = List.range 3 ∧
     sleepsOf (runCommand (fun _ => true) 3).1
       = (List.range (3 - 1)).map (fun k => 2 ^ k) ∧
     (sleepsOf (runCommand (fun _ => true) 3).1).Pairwise
       (fun x y => x < y)) :=
  ⟨by norm_num, executor_retry_backoff_reraise 3 (by norm_num)⟩

/-- C1: when a guarded step raises after recording installs and backups,
the guard re-raises exactly the original exception (regardless of any
removal or rename failure during rollback); the single removal command
covers exactly the packages recorded since the entry snapshot (current
minus pre-run set); and — when every recorded backup still exists and no
rename fails — every recorded backup file is renamed over the path
obtained by stripping the `.backup.<session>` suffix. -/
theorem rollback_guard_behaviour
    (env : RollbackEnv)
    (body : InstallationState → InstallationState × Option String)
    (s0 s1 : InstallationState) (e : String)
    (hbody : body s0 = (s1, some e))
    (hex : ∀ b ∈ s1.backup_files, env.backupExists b = true)
    (hren : ∀ b ∈ s1.backup_files, env.renameFails b = false) :
    rollbackOnFailure env body s0
      = (s1, some (rollbackInstallation s0 s1 env), some e) ∧
    (∀ p : String,
      (∃ cmd, (rollbackInstallation s0 s1 env).removalCommand = some cmd
              ∧ p ∈ cmd)
        ↔ (p ∈ s1.packages_installed ∧ ¬ p ∈ s0.packages_installed)) ∧
    (rollbackInstallation s0 s1 env).restored
      = s1.backup_files.map (fun b => (b, stripBackupSuffix b)) := by
  refine ⟨by simp [rollbackOnFailure, hbody], ?_, ?_⟩
  · intro p
    by_cases hdiff : (s1.packages_installed.filter
        (fun p => ¬ p ∈ s0.packages_installed)).dedup.isEmpty
    · rw [List.isEmpty_iff] at hdiff
      simp only [rollbackInstallation, hdiff]
      constructor
      · rintro ⟨cmd, hc, -⟩
        rw [if_pos] at hc
        · exact absurd hc (by simp)
        · simp
      · rintro ⟨hin, hout⟩
        have : p ∈ (s1.packages_installed.filter
            (fun p => ¬ p ∈ s0.packages_installed)).dedup := by
          rw [List.mem_dedup, List.mem_filter]
          exact ⟨hin, by simpa using hout⟩
        rw [hdiff] at this
        exact absurd this (by simp)
    · simp only [rollbackInstallation, if_neg hdiff]
      constructor
      · rintro ⟨cmd, hc, hp⟩
        rw [Option.some_inj] at hc
        subst hc
        rw [List.mem_dedup, List.mem_filter] at hp
        exact ⟨hp.1, by simpa using hp.2⟩
      · rintro ⟨hin, hout⟩
        refine ⟨_, rfl, ?_⟩
        rw [List.mem_dedup, List.mem_filter]
        exact ⟨hin, by simpa using hout⟩
  · simp only [rollbackInstallation]
    have h1 : s1.backup_files.filter (fun b => env.backupExists b)
        = s1.backup_files :=
      List.filter_eq_self.mpr hex
    rw [h1]
    have h2 : s1.backup_files.filter (fun b => ¬ env.renameFails b)
        = s1.backup_files :=
      List.filter_eq_self.mpr (fun b hb => by simp [hren b hb])
    rw [h2]

/-- Witness for C1 in the spec's scenario: one recorded package install and
one recorded backup, step failure `"step 4 failed"`. -/
theorem rollback_guard_behaviour_witness :
    rollbackOnFailure sampleRollbackEnv sampleFailingBody
        InstallationState.empty
      = (sampleFailState,
         some (rollbackInstallation InstallationState.empty sampleFailState
           sampleRollbackEnv),
         some "step 4 failed") ∧
    (rollbackInstallation InstallationState.empty sampleFailState
        sampleRollbackEnv).restored
      = sampleFailState.backup_files.map
          (fun b => (b, stripBackupSuffix b)) := by
  have h := rollback_guard_behaviour sampleRollbackEnv sampleFailingBody
    InstallationState.empty sampleFailState "step 4 failed"
    rfl (fun b _ => rfl) (fun b _ => rfl)
  exact ⟨h.1, h.2.2⟩

/-- C3 counterexample: the `minimal` and `base` tiers are distinct tiers
whose main package lists share `ros-kilted-ros2cli` for distro `kilted`,
so the four tiers do not map to pairwise disjoint package-name sets. -/
theorem tier_sets_share_ros2cli :
    ("minimal" : String) ≠ "base" ∧
    "ros-kilted-ros2cli" ∈ mainPackages "minimal" "kilted" ∧
    "ros-kilted-ros2cli" ∈ mainPackages "base" "kilted" := by
  decide

/-- C3 amended: for every valid distribution, every pair of distinct tiers
other than `minimal`/`base` has disjoint main package lists, while
`minimal` and `base` overlap in exactly `ros-{distro}-ros2cli`. -/
theorem tier_sets_disjoint_except_ros2cli :
    ∀ d ∈ validDistros,
      (∀ p ∈ mainPackages "minimal" d, p ∈ mainPackages "base" d →
        p = "ros-" ++ d ++ "-ros2cli") ∧
      ("ros-" ++ d ++ "-ros2cli") ∈ mainPackages "minimal" d ∧
      ("ros-" ++ d ++ "-ros2cli") ∈ mainPackages "base" d ∧
      (∀ p ∈ mainPackages "minimal" d, ¬ p ∈ mainPackages "desktop" d) ∧
      (∀ p ∈ mainPackages "minimal" d, ¬ p ∈ mainPackages "desktop-full" d) ∧
      (∀ p ∈ mainPackages "base" d, ¬ p ∈ mainPackages "desktop" d) ∧
      (∀ p ∈ mainPackages "base" d, ¬ p ∈ mainPackages "desktop-full" d) ∧
      (∀ p ∈ mainPackages "desktop" d, ¬ p ∈ mainPackages "desktop-full" d)
    := by
  intro d hd
  simp only [validDistros, List.mem_cons, List.not_mem_nil, or_false] at hd
  rcases hd with rfl | rfl | rfl | rfl | rfl <;> decide

/-- Witness for the amended C3 at distro `kilted`. -/
theorem tier_sets_disjoint_except_ros2cli_witness :
    "kilted" ∈ validDistros ∧
    ((∀ p ∈ mainPackages "minimal" "kilted", p ∈ mainPackages "base" "kilted" →
        p = "ros-" ++ "kilted" ++ "-ros2cli") ∧
      ("ros-" ++ "kilted" ++ "-ros2cli") ∈ mainPackages "minimal" "kilted" ∧
      ("ros-" ++ "kilted" ++ "-ros2cli") ∈ mainPackages "base" "kilted" ∧
      (∀ p ∈ mainPackages "minimal" "kilted",
        ¬ p ∈ mainPackages "desktop" "kilted") ∧
      (∀ p ∈ mainPackages "minimal" "kilted",
        ¬ p ∈ mainPackages "desktop-full" "kilted") ∧
      (∀ p ∈ mainPackages "base" "kilted",
        ¬ p ∈ mainPackages "desktop" "kilted") ∧
      (∀ p ∈ mainPackages "base" "kilted",
        ¬ p ∈ mainPackages "desktop-full" "kilted") ∧
      (∀ p ∈ mainPackages "desktop" "kilted",
        ¬ p ∈ mainPackages "desktop-full" "kilted")) :=
  ⟨by decide, tier_sets_disjoint_except_ros2cli "kilted" (by decide)⟩

/-- C4 counterexample: a configuration whose tier is the invalid string
`"bogus"` is accepted unchanged by `_validate_configuration`, and the tier
is then interpreted at use time — package resolution and image selection
both fall back to `desktop-full`. -/
theorem invalid_tier_accepted_then_interpreted :
    validateConfiguration
        ⟨some ⟨some "kilted", some "bogus", none, none, none⟩,
         some (), none, none⟩
      = Except.ok
          ⟨some ⟨some "kilted", some "bogus", none, none, none⟩,
           some (), none, none⟩ ∧
    ¬ ("bogus" : String) ∈ validPackageSets ∧
    mainPackages "bogus" "kilted" = mainPackages "desktop-full" "kilted" ∧
    getRosDockerImage "kilted" "bogus" = "osrf/ros:kilted-desktop-full" :=
  ⟨rfl, by decide, by decide, by decide⟩

/-- C4 amended: configuration load rejects only missing required sections
and invalid distribution identifiers; a configuration whose package-set
tier lies outside the enumerated set is accepted unchanged at load, and
the tier is interpreted at use time as `desktop-full` by both package
resolution and image selection. -/
theorem invalid_tier_passes_load_interpreted_as_desktop_full
    (cfg : ConfigDoc) (sec : InstallationSection) (ps : String)
    (hsec : cfg.installation = some sec)
    (_hps : sec.package_set = some ps)
    (hlog : ¬ cfg.logging = none)
    (hdistro : cfg.distro ∈ validDistros)
    (hbad : ¬ ps ∈ validPackageSets) :
    validateConfiguration cfg = Except.ok cfg ∧
    mainPackages ps cfg.distro = mainPackages "desktop-full" cfg.distro ∧
    getRosDockerImage cfg.distro ps
      = getRosDockerImage cfg.distro "desktop-full" := by
  simp only [validPackageSets, List.mem_cons, List.not_mem_nil, or_false,
    not_or] at hbad
  obtain ⟨h1, h2, h3, h4⟩ := hbad
  refine ⟨?_, ?_, ?_⟩
  · unfold validateConfiguration
    rw [if_neg (by simp [hsec]), if_neg (by simpa using hlog),
      if_neg (by simpa using hdistro)]
  · unfold mainPackages
    rw [if_neg h1, if_neg h2, if_neg h3]
    simp
  · unfold getRosDockerImage
    rw [if_neg h1, if_neg h2, if_neg h3, if_neg h4]
    simp

/-- Witness for the amended C4 at a concrete configuration with tier
`"bogus"`. -/
theorem invalid_tier_passes_load_witness :
    validateConfiguration
        ⟨some ⟨some "jazzy", some "bogus", none, none, none⟩,
         some (), none, none⟩
      = Except.ok
          ⟨some ⟨some "jazzy", some "bogus", none, none, none⟩,
           some (), none, none⟩ ∧
    mainPackages "bogus"
        (ConfigDoc.distro
          ⟨some ⟨some "jazzy", some "bogus", none, none, none⟩,
           some (), none, none⟩)
      = mainPackages "desktop-full"
          (ConfigDoc.distro
            ⟨some ⟨some "jazzy", some "bogus", none, none, none⟩,
             some (), none, none⟩) ∧
    getRosDockerImage
        (ConfigDoc.distro
          ⟨some ⟨some "jazzy", some "bogus", none, none, none⟩,
           some (), none, none⟩) "bogus"
      = getRosDockerImage
          (ConfigDoc.distro
            ⟨some ⟨some "jazzy", some "bogus", none, none, none⟩,
             some (), none, none⟩) "desktop-full" :=
  invalid_tier_passes_load_interpreted_as_desktop_full
    ⟨some ⟨some "jazzy", some "bogus", none, none, none⟩, some (), none, none⟩
    ⟨some "jazzy", some "bogus", none, none, none⟩ "bogus"
    rfl rfl (by decide) (by decide) (by decide)

/-- C8: a configuration document missing the `installation` or `logging`
section, or whose distribution identifier lies outside the enumerated set,
is rejected by configuration load with a `ConfigurationError`, and loading
a parsed document mutates nothing (the mutation list is empty). -/
theorem config_load_rejects_invalid (cfg : ConfigDoc)
    (hbad : cfg.installation = none ∨ cfg.logging = none ∨
      ¬ cfg.distro ∈ validDistros) :
    isLoadError (loadConfiguration cfg).1 = true ∧
    (loadConfiguration cfg).2 = [] := by
  have hv : isLoadError (validateConfiguration cfg) = true := by
    unfold validateConfiguration
    rcases hbad with h | h | h
    · simp [h, isLoadError]
    · by_cases hi : cfg.installation.isNone <;>
        simp [h, hi, isLoadError]
    · by_cases hi : cfg.installation.isNone
      · simp [hi, isLoadError]
      · by_cases hl : cfg.logging.isNone <;>
          simp [h, hi, hl, isLoadError]
  refine ⟨?_, rfl⟩
  unfold loadConfiguration
  revert hv
  cases validateConfiguration cfg <;> simp [isLoadError]

/-- Witness for C8: a document whose sections are present but whose
distribution identifier `"noetic"` is outside the enumerated set. -/
theorem config_load_rejects_invalid_witness :
    isLoadError
        (loadConfiguration
          ⟨some ⟨some "noetic", none, none, none, none⟩,
           some (), none, none⟩).1 = true ∧
    (loadConfiguration
        ⟨some ⟨some "noetic", none, none, none, none⟩,
         some (), none, none⟩).2 = [] :=
  config_load_rejects_invalid
    ⟨some ⟨some "noetic", none, none, none, none⟩, some (), none, none⟩
    (Or.inr (Or.inr (by decide)))

/-- C5 counterexample: with the snapshot *and* the configuration fixed,
the Validator's pass/fail outcome still differs between two host
environments that differ only in the effective uid — the outcome is not a
function of (snapshot, configuration) alone, because `validate_system`
reads `os.geteuid()` (and runs subprocess probes) beyond the gathered
snapshot. -/
theorem validator_not_function_of_snapshot_and_config :
    (validateSystem sampleConfig ubuntuSnapshot ⟨0, "24.04", true⟩).passed
      = true ∧
    (validateSystem sampleConfig ubuntuSnapshot
        ⟨1000, "24.04", true⟩).passed
      = false := by
  constructor <;>
    norm_num [validateSystem, validationOf, sampleConfig, ubuntuSnapshot]

/-- C5 amended: the Validator's pass/fail outcome and issue list are a
function of the snapshot, the configuration and the effective uid; the
further host probes (`lsb_release` output, docker detection) influence
only warnings and logging, so two invocations agreeing on the effective
uid agree on the outcome and issue list. -/
theorem validator_outcome_function_of_snapshot_config_euid
    (cfg : ConfigDoc) (info : SystemInfo) (env env2 : HostEnv)
    (h : env.euid = env2.euid) :
    (validateSystem cfg info env).passed
      = (validateSystem cfg info env2).passed ∧
    (validateSystem cfg info env).issues
      = (validateSystem cfg info env2).issues := by
  simp only [validateSystem]
  rw [h]
  exact ⟨rfl, rfl⟩

/-- Witness for the amended C5: equal uids, different probe results. -/
theorem validator_outcome_function_witness :
    (⟨1000, "24.04", true⟩ : HostEnv).euid
      = (⟨1000, "", false⟩ : HostEnv).euid ∧
    ((validateSystem sampleConfig ubuntuSnapshot ⟨1000, "24.04", true⟩).passed
       = (validateSystem sampleConfig ubuntuSnapshot ⟨1000, "", false⟩).passed ∧
     (validateSystem sampleConfig ubuntuSnapshot ⟨1000, "24.04", true⟩).issues
       = (validateSystem sampleConfig ubuntuSnapshot
           ⟨1000, "", false⟩).issues) :=
  ⟨rfl, validator_outcome_function_of_snapshot_config_euid
    sampleConfig ubuntuSnapshot ⟨1000, "24.04", true⟩ ⟨1000, "", false⟩ rfl⟩

lemma runPlan_trace_sublist (l : List (DockerStep × Option String)) :
    (runPlan l).1.Sublist (l.map Prod.fst) := by
  induction l with
  | nil => simp [runPlan]
  | cons x rest ih =>
    rcases x with ⟨st, o⟩
    cases o with
    | none => simpa [runPlan] using ih.cons₂ st
    | some e => simp [runPlan]

lemma dockerStepPlan_fst_sublist (scen : DockerScenario) :
    ((dockerStepPlan scen).map Prod.fst).Sublist canonicalDockerOrder := by
  rcases hI : scen.dockerInstalled with _ | _ <;>
    rcases hR : scen.dockerRunning with _ | _ <;>
      simp [dockerStepPlan, canonicalDockerOrder, hI, hR]

/-- C7: the container pipeline attempts its steps only in the canonical
order install-runtime, wait-for-daemon, build-image, create-container,
install-wrapper, verify; and when validation and confirmation pass, docker
install/daemon wait do not raise (or are skipped), and the image build
raises `e`, then container creation is never attempted, the build step was
attempted, and the run result is `success=false` with exactly `[e]` as its
error list. -/
theorem container_pipeline_order_and_build_failure (scen : DockerScenario) :
    (installRos2Docker scen).1.Sublist canonicalDockerOrder ∧
    (∀ e, scen.validationPasses = true → scen.userConfirms = true →
      (scen.dockerInstalled = true ∨ scen.installDockerOutcome = none) →
      (scen.dockerRunning = true ∨ scen.waitDaemonOutcome = none) →
      scen.buildOutcome = some e →
      ¬ DockerStep.createContainer ∈ (installRos2Docker scen).1 ∧
      DockerStep.buildImage ∈ (installRos2Docker scen).1 ∧
      (installRos2Docker scen).2
        = ⟨false, scen.elapsed, 0, [e], [], scen.sid⟩) := by
  constructor
  · by_cases hv : scen.validationPasses = false
    · simp [installRos2Docker, hv]
    · by_cases hc : scen.userConfirms = false
      · simp [installRos2Docker, hv, hc]
      · have h3 := (runPlan_trace_sublist (dockerStepPlan scen)).trans
          (dockerStepPlan_fst_sublist scen)
        unfold installRos2Docker
        rw [if_neg hv, if_neg hc]
        rcases hr : runPlan (dockerStepPlan scen) with ⟨tr, err⟩
        rw [hr] at h3
        cases err <;> simpa using h3
  · intro e hv hc hi hr hb
    rcases hI : scen.dockerInstalled with _ | _ <;>
      rcases hR : scen.dockerRunning with _ | _
    · have hio : scen.installDockerOutcome = none := by
        rcases hi with h | h
        · rw [hI] at h; exact absurd h (by simp)
        · exact h
      have hwo : scen.waitDaemonOutcome = none := by
        rcases hr with h | h
        · rw [hR] at h; exact absurd h (by simp)
        · exact h
      unfold installRos2Docker
      rw [if_neg (by simp [hv]), if_neg (by simp [hc])]
      simp [dockerStepPlan, hI, hR, hio, hwo, hb, runPlan]
    · have hio : scen.installDockerOutcome = none := by
        rcases hi with h | h
        · rw [hI] at h; exact absurd h (by simp)
        · exact h
      unfold installRos2Docker
      rw [if_neg (by simp [hv]), if_neg (by simp [hc])]
      simp [dockerStepPlan, hI, hR, hio, hb, runPlan]
    · have hwo : scen.waitDaemonOutcome = none := by
        rcases hr with h | h
        · rw [hR] at h; exact absurd h (by simp)
        · exact h
      unfold installRos2Docker
      rw [if_neg (by simp [hv]), if_neg (by simp [hc])]
      simp [dockerStepPlan, hI, hR, hwo, hb, runPlan]
    · unfold installRos2Docker
      rw [if_neg (by simp [hv]), if_neg (by simp [hc])]
      simp [dockerStepPlan, hI, hR, hb, runPlan]

/-- Witness for C7 at the build-failure scenario. -/
theorem container_pipeline_witness :
    (installRos2Docker sampleBuildFailScenario).1.Sublist
      canonicalDockerOrder ∧
    (¬ DockerStep.createContainer
        ∈ (installRos2Docker sampleBuildFailScenario).1 ∧
     DockerStep.buildImage ∈ (installRos2Docker sampleBuildFailScenario).1 ∧
     (installRos2Docker sampleBuildFailScenario).2
       = ⟨false, sampleBuildFailScenario.elapsed, 0, ["build failed"], [],
          sampleBuildFailScenario.sid⟩) :=
  ⟨(container_pipeline_order_and_build_failure sampleBuildFailScenario).1,
   (container_pipeline_order_and_build_failure sampleBuildFailScenario).2
     "build failed" rfl rfl (Or.inr rfl) (Or.inr rfl) rfl⟩

/-- C9: in both pipelines, when validation passes but the user declines
the confirmation prompt, the run returns `success=false`, `duration=0`,
`packages_installed=0`, empty warnings, and exactly
`["Installation cancelled by user"]` as the error list, with no step
attempted and no rollback performed. -/
theorem user_cancellation_result (nscen : NativeScenario)
    (dscen : DockerScenario)
    (hnv : nscen.validationPasses = true) (hnc : nscen.userConfirms = false)
    (hdv : dscen.validationPasses = true) (hdc : dscen.userConfirms = false) :
    installRos2Native nscen
      = ([], none,
         ⟨false, 0, 0, ["Installation cancelled by user"], [], nscen.sid⟩) ∧
    installRos2Docker dscen
      = ([],
         ⟨false, 0, 0, ["Installation cancelled by user"], [], dscen.sid⟩)
    := by
  constructor
  · unfold installRos2Native
    rw [if_neg (by simp [hnv]), if_pos hnc]
  · unfold installRos2Docker
    rw [if_neg (by simp [hdv]), if_pos hdc]

/-- Witness for C9 at concrete declined-prompt scenarios. -/
theorem user_cancellation_witness :
    installRos2Native sampleNativeCancel
      = ([], none,
         ⟨false, 0, 0, ["Installation cancelled by user"], [],
          sampleNativeCancel.sid⟩) ∧
    installRos2Docker sampleDockerCancel
      = ([],
         ⟨false, 0, 0, ["Installation cancelled by user"], [],
          sampleDockerCancel.sid⟩) :=
  user_cancellation_result sampleNativeCancel sampleDockerCancel
    rfl rfl rfl rfl

/-- C10: every successful containerized installation reports
`packages_installed = 1`, whatever the scenario. -/
theorem container_success_reports_one_package (scen : DockerScenario)
    (h : (installRos2Docker scen).2.success = true) :
    (installRos2Docker scen).2.packages_installed = 1 := by
  revert h
  unfold installRos2Docker
  by_cases hv : scen.validationPasses = false
  · rw [if_pos hv]; intro h; simp at h
  · rw [if_neg hv]
    by_cases hc : scen.userConfirms = false
    · rw [if_pos hc]; intro h; simp at h
    · rw [if_neg hc]
      rcases hr : runPlan (dockerStepPlan scen) with ⟨tr, err⟩
      cases err with
      | none => intro _; rfl
      | some e => intro h; simp at h

/-- Witness for C10 at the fully successful scenario. -/
theorem container_success_one_package_witness :
    (installRos2Docker sampleDockerSuccess).2.success = true ∧
    (installRos2Docker sampleDockerSuccess).2.packages_installed = 1 :=
  ⟨rfl, container_success_reports_one_package sampleDockerSuccess rfl⟩

lemma matchesAt_self_append (pat suf : List Char) :
    matchesAt pat (pat ++ suf) = true := by
  unfold matchesAt
  rw [List.take_left]
  simp

lemma lastMatchPos_isSome_of_occurrence (pat s : List Char) (i : Nat)
    (hi : i ≤ s.length) (hm : matchesAt pat (s.drop i) = true) :
    (lastMatchPos pat s).isSome = true := by
  unfold lastMatchPos
  rw [List.getLast?_isSome]
  intro hemp
  have hmem : i ∈ (List.range (s.length + 1)).filter
      (fun j => matchesAt pat (s.drop j)) := by
    rw [List.mem_filter]
    exact ⟨List.mem_range.mpr (by omega), hm⟩
  rw [hemp] at hmem
  exact absurd hmem (List.not_mem_nil i)

lemma containsSub_of_split (pat s pre suf : String)
    (h : s = pre ++ (pat ++ suf)) : containsSub pat s = true := by
  unfold containsSub
  apply lastMatchPos_isSome_of_occurrence pat.toList s.toList
    pre.toList.length
  · have : s.toList = pre.toList ++ (pat.toList ++ suf.toList) := by
      rw [h]
      simp [String.toList, String.data_append]
    rw [this]
    simp
  · have : s.toList.drop pre.toList.length = pat.toList ++ suf.toList := by
      rw [h]
      have hdata : (pre ++ (pat ++ suf)).toList
          = pre.toList ++ (pat.toList ++ suf.toList) := by
        simp [String.toList, String.data_append]
      rw [hdata, List.drop_left]
    rw [this]
    exact matchesAt_self_append pat.toList suf.toList

lemma joinLines_mem_split (a : String) (lines : List String)
    (h : a ∈ lines) : ∃ pre suf, joinLines lines = pre ++ (a ++ suf) := by
  induction lines with
  | nil => cases h
  | cons l rest ih =>
    rcases List.mem_cons.mp h with rfl | hmem
    · cases rest with
      | nil => exact ⟨"", "", by simp [joinLines]⟩
      | cons b t =>
        refine ⟨"", "\n" ++ joinLines (b :: t), ?_⟩
        show a ++ "\n" ++ joinLines (b :: t) = "" ++ (a ++ ("\n" ++ joinLines (b :: t)))
        rw [String.append_assoc]
        simp
    · cases rest with
      | nil => exact absurd hmem (List.not_mem_nil a)
      | cons b t =>
        obtain ⟨pre, suf, hps⟩ := ih hmem
        refine ⟨l ++ "\n" ++ pre, suf, ?_⟩
        show l ++ "\n" ++ joinLines (b :: t) = l ++ "\n" ++ pre ++ (a ++ suf)
        rw [hps]
        simp [String.append_assoc]

lemma not_mem_of_not_containsSub (a : String) (lines : List String)
    (h : containsSub a (joinLines lines) = false) : ¬ a ∈ lines := by
  intro hmem
  obtain ⟨pre, suf, hps⟩ := joinLines_mem_split a lines hmem
  have htrue := containsSub_of_split a (joinLines lines) pre suf hps
  rw [h] at htrue
  cases htrue

lemma sig_mem_rosSetupBlock (d : String) : sigLine d ∈ rosSetupBlock d := by
  simp [rosSetupBlock]

lemma count_sig_rosSetupBlock (d : String) (hd : d ∈ validDistros) :
    (rosSetupBlock d).count (sigLine d) = 1 := by
  simp only [validDistros, List.mem_cons, List.not_mem_nil, or_false] at hd
  rcases hd with rfl | rfl | rfl | rfl | rfl <;> decide

set_option maxRecDepth 8192 in
/-- C6 counterexample: with backups configured, the second run of the
profile-append step is *not* a no-op — the backup `cp` runs before the
idempotence check, so a second run over a profile that already carries the
setup block still creates a fresh backup copy and appends its path to the
journal again. -/
theorem profile_append_second_run_not_noop :
    (configureEnvironment "kilted" true (some "u") "abc12345"
        (configureEnvironment "kilted" true (some "u") "abc12345"
          emptyProfileStart)).journal.backup_files
      ≠ (configureEnvironment "kilted" true (some "u") "abc12345"
          emptyProfileStart).journal.backup_files ∧
    (configureEnvironment "kilted" true (some "u") "abc12345"
        (configureEnvironment "kilted" true (some "u") "abc12345"
          emptyProfileStart)).createdFiles
      ≠ (configureEnvironment "kilted" true (some "u") "abc12345"
          emptyProfileStart).createdFiles := by
  decide

/-- C6 amended: running the profile-append step twice with the same
distribution leaves exactly one setup block in the profile and the second
run never mutates the profile; with backups disabled the second run is a
full no-op, but with backups enabled it creates another backup copy of the
profile and appends its path to the journal (while the profile itself and
the modified-files journal stay unchanged). -/
theorem profile_append_idempotent_amended (d : String)
    (hd : d ∈ validDistros) (b : Bool) (user sessionId : String)
    (st0 s1 s2 : ProfileState)
    (h1 : s1 = configureEnvironment d b (some user) sessionId st0)
    (h2 : s2 = configureEnvironment d b (some user) sessionId s1)
    (hsig : containsSub (sigLine d) (joinLines (st0.bashrc.getD []))
      = false) :
    s2.bashrc = s1.bashrc ∧
    (s2.bashrc.getD []).count (sigLine d) = 1 ∧
    (b = false → s2 = s1) ∧
    (b = true →
      s2.createdFiles = s1.createdFiles
        ++ [bashrcPath user ++ ".backup." ++ sessionId] ∧
      s2.journal.backup_files = s1.journal.backup_files
        ++ [bashrcPath user ++ ".backup." ++ sessionId] ∧
      s2.journal.files_modified = s1.journal.files_modified) := by
  have hnotmem : ¬ sigLine d ∈ st0.bashrc.getD [] :=
    not_mem_of_not_containsSub (sigLine d) (st0.bashrc.getD []) hsig
  have hs1bash : s1.bashrc
      = some (st0.bashrc.getD [] ++ rosSetupBlock d) := by
    subst h1
    unfold configureEnvironment
    cases hb0 : st0.bashrc with
    | none => simp [hb0]
    | some lines =>
      have hdec : containsSub (sigLine d) (joinLines lines) = false := by
        simpa [hb0] using hsig
      cases b <;> simp [hb0, hdec]
  have hmem : sigLine d ∈ (st0.bashrc.getD [] ++ rosSetupBlock d) :=
    List.mem_append.mpr (Or.inr (sig_mem_rosSetupBlock d))
  have htrue : containsSub (sigLine d)
      (joinLines (st0.bashrc.getD [] ++ rosSetupBlock d)) = true := by
    obtain ⟨pre, suf, hps⟩ := joinLines_mem_split (sigLine d) _ hmem
    exact containsSub_of_split (sigLine d) _ pre suf hps
  have hs2 : s2 = (if b then
      { s1 with
        createdFiles := s1.createdFiles
          ++ [bashrcPath user ++ ".backup." ++ sessionId]
        journal := { s1.journal with
          backup_files := s1.journal.backup_files
            ++ [bashrcPath user ++ ".backup." ++ sessionId] } }
    else s1) := by
    subst h2
    unfold configureEnvironment
    simp only [hs1bash]
    simp [htrue]
  refine ⟨?_, ?_, ?_, ?_⟩
  · rw [hs2]; cases b <;> simp
  · have hbash2 : s2.bashrc = s1.bashrc := by
      rw [hs2]; cases b <;> simp
    rw [hbash2, hs1bash]
    simp only [Option.getD_some, List.count_append]
    rw [List.count_eq_zero.mpr (by simpa using hnotmem),
      count_sig_rosSetupBlock d hd]
  · intro hb; rw [hs2, if_neg (by simp [hb])]
  · intro hb; rw [hs2, if_pos hb]; cases b <;> simp

/-- Witness for the amended C6: distro `kilted`, backups enabled, an empty
pre-existing profile. -/
theorem profile_append_idempotent_witness :
    "kilted" ∈ validDistros ∧
    containsSub (sigLine "kilted")
      (joinLines (emptyProfileStart.bashrc.getD [])) = false ∧
    ((configureEnvironment "kilted" true (some "u") "abc12345"
        (configureEnvironment "kilted" true (some "u") "abc12345"
          emptyProfileStart)).bashrc
      = (configureEnvironment "kilted" true (some "u") "abc12345"
          emptyProfileStart).bashrc ∧
     ((configureEnvironment "kilted" true (some "u") "abc12345"
        (configureEnvironment "kilted" true (some "u") "abc12345"
          emptyProfileStart)).bashrc.getD []).count (sigLine "kilted") = 1 ∧
     (true = false →
       configureEnvironment "kilted" true (some "u") "abc12345"
          (configureEnvironment "kilted" true (some "u") "abc12345"
            emptyProfileStart)
         = configureEnvironment "kilted" true (some "u") "abc12345"
             emptyProfileStart) ∧
     (true = true →
       (configureEnvironment "kilted" true (some "u") "abc12345"
          (configureEnvironment "kilted" true (some "u") "abc12345"
            emptyProfileStart)).createdFiles
         = (configureEnvironment "kilted" true (some "u") "abc12345"
             emptyProfileStart).createdFiles
           ++ [bashrcPath "u" ++ ".backup." ++ "abc12345"] ∧
       (configureEnvironment "kilted" true (some "u") "abc12345"
          (configureEnvironment "kilted" true (some "u") "abc12345"
            emptyProfileStart)).journal.backup_files
         = (configureEnvironment "kilted" true (some "u") "abc12345"
             emptyProfileStart).journal.backup_files
           ++ [bashrcPath "u" ++ ".backup." ++ "abc12345"] ∧
       (configureEnvironment "kilted" true (some "u") "abc12345"
          (configureEnvironment "kilted" true (some "u") "abc12345"
            emptyProfileStart)).journal.files_modified
         = (configureEnvironment "kilted" true (some "u") "abc12345"
             emptyProfileStart).journal.files_modified)) :=
  ⟨by decide, by decide,
   profile_append_idempotent_amended "kilted" (by decide) true "u" "abc12345"
     emptyProfileStart _ _ rfl rfl (by decide)⟩

end Ros2Installer
